import Mathlib

/-!
Shallow embedding of `src/app/dashboard/profile/page.tsx` (the `ProfileSettings`
client component): its local state, the `fetchProfile` load operation and the
`updateProfile` save operation.  External collaborators (the auth/database
client and the router) are modelled as explicit inputs: each awaited call is a
parameter holding the value that call resolved (or rejected) with, and router
effects are returned alongside the new state.
-/

namespace ProfilePage

/-- The `Profile` interface of the component: `id` plus four optional text
fields.  A JavaScript string field that is `undefined` is `none`; present
strings (including the empty string) are `some`. -/
structure Profile where
  id : String
  full_name : Option String := none
  username : Option String := none
  website : Option String := none
  bio : Option String := none
deriving DecidableEq, Repr

/-- The record object passed to `supabase.from('profiles').upsert({...})`:
the five profile fields plus `updated_at`, which the code sets to
`new Date().toISOString()` at the moment of the save. -/
structure UpsertRecord where
  id : String
  full_name : Option String
  username : Option String
  website : Option String
  bio : Option String
  updated_at : String
deriving DecidableEq, Repr

/-- A backend error object as the component observes it: an optional `code`
(compared against the string `'23505'`) and an optional `message` (`some m`
when the caught value is an `Error` carrying message `m`, `none` when no
message is available to `err instanceof Error ? err.message : ...`). -/
structure DbError where
  code : Option String
  message : Option String
deriving DecidableEq, Repr

/-- The component's `useState` pieces: `profile`, `isLoading`, `isSaving`,
`error`, `successMessage`. -/
structure ComponentState where
  profile : Option Profile
  isLoading : Bool
  isSaving : Bool
  error : Option String
  successMessage : Option String
deriving DecidableEq, Repr

/-- The initial state from the `useState` initializers:
`null, true, false, null, null`. -/
def initialState : ComponentState :=
  { profile := none, isLoading := true, isSaving := false,
    error := none, successMessage := none }

/-- Router effect of a load: `router.push` target, if any. -/
structure LoadEffects where
  pushedTo : Option String
deriving DecidableEq, Repr

/-- Effects of a save: the record handed to the `upsert` network call (`none`
when no call was issued), and whether `router.refresh()` was invoked. -/
structure SaveEffects where
  upsertRecord : Option UpsertRecord
  refreshed : Bool
deriving DecidableEq, Repr

/-- The `fetchProfile` callback.  `userRes` is the outcome of
`await supabase.auth.getUser()` projected to the user: `.error ()` when the
await rejects, `.ok none` when there is no user, `.ok (some uid)` otherwise.
`profRes` is the outcome of the `.select('*').eq('id', user.id).single()`
call: `.error ()` when the await rejects, `.ok (data, error)` for a resolved
`{ data, error }` pair.  The body mirrors the try/catch/finally:
`if (error) throw error; setProfile(data || { id: user.id })`, the catch sets
the generic message, the finally clears `isLoading`. -/
def fetchProfile (s : ComponentState)
    (userRes : Except Unit (Option String))
    (profRes : Except Unit (Option Profile × Option DbError)) :
    ComponentState × LoadEffects :=
  match userRes with
  | .error _ =>
      ({ s with error := some "Failed to load profile", isLoading := false },
       ⟨none⟩)
  | .ok none =>
      ({ s with isLoading := false }, ⟨some "/auth"⟩)
  | .ok (some uid) =>
      match profRes with
      | .error _ =>
          ({ s with error := some "Failed to load profile", isLoading := false },
           ⟨none⟩)
      | .ok (_, some _) =>
          ({ s with error := some "Failed to load profile", isLoading := false },
           ⟨none⟩)
      | .ok (data, none) =>
          ({ s with profile := some (data.getD { id := uid }),
                    isLoading := false },
           ⟨none⟩)

/-- The local validation condition `profile.username && profile.username.length < 3`:
JavaScript truthiness makes the empty string falsy, so an absent or empty
username does not trigger the check. -/
def usernameTooShort : Option String → Bool
  | none => false
  | some u => !(u == "") && u.length < 3

/-- The object literal passed to `upsert` in `updateProfile`. -/
def mkUpsertRecord (p : Profile) (now : String) : UpsertRecord :=
  { id := p.id, full_name := p.full_name, username := p.username,
    website := p.website, bio := p.bio, updated_at := now }

/-- The `updateProfile` submit handler.  `backend` gives, for the record sent,
the `error` component of the resolved upsert call (`none` on success).  `now`
is the string `new Date().toISOString()` evaluates to.  Mirrors the body:
the `!profile?.id` early return, the setSaving/clear-messages prologue, the
username-length throw, the `23505` mapping, the generic catch
(`err instanceof Error ? err.message : 'Failed to update profile'`), the
success path with `router.refresh()`, and the finally clearing `isSaving`. -/
def updateProfile (s : ComponentState)
    (backend : UpsertRecord → Option DbError) (now : String) :
    ComponentState × SaveEffects :=
  match s.profile with
  | none => (s, ⟨none, false⟩)
  | some p =>
    if p.id == "" then (s, ⟨none, false⟩)
    else
      let s1 : ComponentState :=
        { s with isSaving := true, error := none, successMessage := none }
      if usernameTooShort p.username then
        ({ s1 with error := some "Username must be at least 3 characters long",
                   isSaving := false },
         ⟨none, false⟩)
      else
        let r := mkUpsertRecord p now
        match backend r with
        | some e =>
            if e.code == some "23505" then
              ({ s1 with error := some "Username is already taken",
                         isSaving := false },
               ⟨some r, false⟩)
            else
              ({ s1 with error := some (e.message.getD "Failed to update profile"),
                         isSaving := false },
               ⟨some r, false⟩)
        | none =>
            ({ s1 with successMessage := some "Profile updated successfully",
                       isSaving := false },
             ⟨some r, true⟩)

/-- A concrete profile used in witnesses: id `"u1"`, a chosen username, other
fields absent. -/
def sampleProfile (u : Option String) : Profile :=
  { id := "u1", username := u }

/-- A concrete ready component state holding `sampleProfile u`. -/
def sampleState (u : Option String) : ComponentState :=
  { profile := some (sampleProfile u), isLoading := false, isSaving := false,
    error := none, successMessage := none }

/-- A backend whose upsert always succeeds. -/
def acceptAll : UpsertRecord → Option DbError := fun _ => none

/-- Helper: with no loaded profile, `updateProfile` is the identity and has no
effects (the `!profile?.id` early return). -/
theorem updateProfile_profile_none (s : ComponentState)
    (b : UpsertRecord → Option DbError) (now : String)
    (h : s.profile = none) :
    updateProfile s b now = (s, ⟨none, false⟩) := by
  simp [updateProfile, h]

/-- Helper: when validation passes and the profile id is nonempty, the upsert
call is issued with exactly `mkUpsertRecord p now`. -/
theorem updateProfile_callsBackend (s : ComponentState) (p : Profile)
    (b : UpsertRecord → Option DbError) (now : String)
    (hp : s.profile = some p) (hid : p.id ≠ "")
    (hv : usernameTooShort p.username = false) :
    (updateProfile s b now).2.upsertRecord = some (mkUpsertRecord p now) := by
  have hid2 : (p.id == "") = false := by simp [hid]
  simp only [updateProfile, hp, hid2, Bool.false_eq_true, if_false, hv]
  cases hb2 : b (mkUpsertRecord p now) with
  | none => simp
  | some e =>
    by_cases hc : (e.code == some "23505") = true <;> simp [hc]

/-- Helper: the profile field is never modified by `updateProfile`. -/
theorem updateProfile_preserves_profile (s : ComponentState)
    (b : UpsertRecord → Option DbError) (now : String) :
    (updateProfile s b now).1.profile = s.profile := by
  simp only [updateProfile]
  cases hp : s.profile with
  | none => simp [hp]
  | some p =>
    by_cases hid : (p.id == "") = true
    · simp [hid, hp]
    · simp only [hid, Bool.false_eq_true, if_false]
      by_cases hv : usernameTooShort p.username = true
      · simp [hv]
      · simp only [Bool.not_eq_true] at hv
        simp only [hv, Bool.false_eq_true, if_false]
        cases b (mkUpsertRecord p now) with
        | none => rfl
        | some e =>
          by_cases hc : (e.code == some "23505") = true <;> simp [hc]

/-- C1 counterexample: with a loaded profile whose username is the empty
string (length 0), the save does not fail locally — no validation message is
set and an upsert network call IS issued (JS truthiness: `"" && ...` is
falsy, so the length check is skipped). -/
theorem updateProfile_emptyUsername_upserts :
    (updateProfile (sampleState (some "")) acceptAll "t").2.upsertRecord ≠ none ∧
    (updateProfile (sampleState (some "")) acceptAll "t").1.error = none := by
  decide

/-- C1 (amended): with a loaded profile whose id is nonempty, a username that
is present, nonempty and of length 1 or 2 makes the save fail locally with the
validation message and no upsert call; a username that is absent, empty, or of
length at least 3 passes the local check and the upsert call is attempted. -/
theorem updateProfile_validation (s : ComponentState) (p : Profile)
    (b : UpsertRecord → Option DbError) (now : String)
    (hp : s.profile = some p) (hid : p.id ≠ "") :
    ((∃ u, p.username = some u ∧ u ≠ "" ∧ u.length < 3) →
        (updateProfile s b now).1.error =
          some "Username must be at least 3 characters long" ∧
        (updateProfile s b now).2.upsertRecord = none) ∧
    ((p.username = none ∨ p.username = some "" ∨
        ∃ u, p.username = some u ∧ 3 ≤ u.length) →
        (updateProfile s b now).2.upsertRecord = some (mkUpsertRecord p now)) := by
  have hid2 : (p.id == "") = false := by simp [hid]
  constructor
  · rintro ⟨u, hu, hne, hlt⟩
    have hv : usernameTooShort p.username = true := by
      simp [usernameTooShort, hu, hne, hlt]
    simp [updateProfile, hp, hid2, hv]
  · intro h
    have hv : usernameTooShort p.username = false := by
      rcases h with h | h | ⟨u, hu, hlen⟩
      · simp [usernameTooShort, h]
      · simp [usernameTooShort, h]
      · simp [usernameTooShort, hu]
        omega
    exact updateProfile_callsBackend s p b now hp hid hv

/-- C1 witness: at username `"ab"` (length 2) the validation branch fires. -/
theorem updateProfile_validation_witness :
    (updateProfile (sampleState (some "ab")) acceptAll "t").1.error =
      some "Username must be at least 3 characters long" ∧
    (updateProfile (sampleState (some "ab")) acceptAll "t").2.upsertRecord = none :=
  (updateProfile_validation (sampleState (some "ab")) (sampleProfile (some "ab"))
    acceptAll "t" rfl (by decide)).1 ⟨"ab", rfl, by decide, by decide⟩

/-- C2: from the initial state, a load whose identity fetch yields a user and
whose profile fetch resolves with no row and no error produces a profile equal
to the record with only the session id set (all other fields absent), and no
error message. -/
theorem fetchProfile_noRow (uid : String) :
    (fetchProfile initialState (.ok (some uid)) (.ok (none, none))).1.profile =
      some { id := uid, full_name := none, username := none,
             website := none, bio := none } ∧
    (fetchProfile initialState (.ok (some uid)) (.ok (none, none))).1.error =
      none := by
  simp [fetchProfile, initialState, Option.getD]

/-- C3: when validation passes and the backend upsert reports an error with
code `'23505'`, the user-facing error message is exactly
"Username is already taken" and the success message stays unset. -/
theorem updateProfile_conflict (s : ComponentState) (p : Profile)
    (b : UpsertRecord → Option DbError) (now : String) (e : DbError)
    (hp : s.profile = some p) (hid : p.id ≠ "")
    (hv : usernameTooShort p.username = false)
    (hb : b (mkUpsertRecord p now) = some e) (hc : e.code = some "23505") :
    (updateProfile s b now).1.error = some "Username is already taken" ∧
    (updateProfile s b now).1.successMessage = none := by
  have hid2 : (p.id == "") = false := by simp [hid]
  have hc2 : (e.code == some "23505") = true := by simp [hc]
  simp [updateProfile, hp, hid2, hv, hb, hc2]

/-- C3 witness: a concrete conflict-reporting backend. -/
theorem updateProfile_conflict_witness :
    (updateProfile (sampleState (some "abc"))
        (fun _ => some ⟨some "23505", some "duplicate key"⟩) "t").1.error =
      some "Username is already taken" ∧
    (updateProfile (sampleState (some "abc"))
        (fun _ => some ⟨some "23505", some "duplicate key"⟩) "t").1.successMessage =
      none :=
  updateProfile_conflict (sampleState (some "abc")) (sampleProfile (some "abc"))
    (fun _ => some ⟨some "23505", some "duplicate key"⟩) "t"
    ⟨some "23505", some "duplicate key"⟩ rfl (by decide) (by decide) rfl rfl

/-- C4: when validation passes and the backend upsert succeeds, the error
message is cleared, the success message is set, the upsert call was issued,
and `router.refresh()` is invoked. -/
theorem updateProfile_success (s : ComponentState) (p : Profile)
    (b : UpsertRecord → Option DbError) (now : String)
    (hp : s.profile = some p) (hid : p.id ≠ "")
    (hv : usernameTooShort p.username = false)
    (hb : b (mkUpsertRecord p now) = none) :
    (updateProfile s b now).1.error = none ∧
    (updateProfile s b now).1.successMessage = some "Profile updated successfully" ∧
    (updateProfile s b now).2.upsertRecord = some (mkUpsertRecord p now) ∧
    (updateProfile s b now).2.refreshed = true := by
  have hid2 : (p.id == "") = false := by simp [hid]
  simp [updateProfile, hp, hid2, hv, hb]

/-- C4 witness: a concrete accepting backend. -/
theorem updateProfile_success_witness :
    (updateProfile (sampleState (some "abc")) acceptAll "t").1.error = none ∧
    (updateProfile (sampleState (some "abc")) acceptAll "t").1.successMessage =
      some "Profile updated successfully" ∧
    (updateProfile (sampleState (some "abc")) acceptAll "t").2.upsertRecord =
      some (mkUpsertRecord (sampleProfile (some "abc")) "t") ∧
    (updateProfile (sampleState (some "abc")) acceptAll "t").2.refreshed = true :=
  updateProfile_success (sampleState (some "abc")) (sampleProfile (some "abc"))
    acceptAll "t" rfl (by decide) (by decide) rfl

/-- C5: the load clears the loading flag in every case (success, failure, and
unauthenticated redirect — the finally block), and whenever the identity fetch
rejects, or the identity fetch yields a user and the profile fetch rejects or
resolves with an error, the failure is absorbed and the user-facing error is
set to the generic "Failed to load profile" message. -/
theorem fetchProfile_failure (s : ComponentState)
    (userRes : Except Unit (Option String))
    (profRes : Except Unit (Option Profile × Option DbError)) :
    (fetchProfile s userRes profRes).1.isLoading = false ∧
    ((userRes = .error () ∨ (∃ uid, userRes = .ok (some uid) ∧
        (profRes = .error () ∨ ∃ d e, profRes = .ok (d, some e)))) →
      (fetchProfile s userRes profRes).1.error = some "Failed to load profile") := by
  constructor
  · rcases userRes with _ | u
    · rfl
    · rcases u with _ | uid
      · rfl
      · rcases profRes with _ | de
        · rfl
        · rcases de with ⟨d, _ | e⟩ <;> rfl
  · rintro (h | ⟨uid, hu, h | ⟨d, e, h⟩⟩) <;> subst h
    · rfl
    · subst hu; rfl
    · subst hu; rfl

/-- C5 witness: a rejected identity fetch sets the message and clears loading. -/
theorem fetchProfile_failure_witness :
    (fetchProfile initialState (.error ()) (.ok (none, none))).1.isLoading = false ∧
    (fetchProfile initialState (.error ()) (.ok (none, none))).1.error =
      some "Failed to load profile" :=
  ⟨(fetchProfile_failure initialState (.error ()) (.ok (none, none))).1,
   (fetchProfile_failure initialState (.error ()) (.ok (none, none))).2 (Or.inl rfl)⟩

/-- C6: when validation passes and the backend upsert reports an error whose
code is not `'23505'`, the user-facing error equals the backend message when
one is available and the generic "Failed to update profile" otherwise. -/
theorem updateProfile_genericError (s : ComponentState) (p : Profile)
    (b : UpsertRecord → Option DbError) (now : String) (e : DbError)
    (hp : s.profile = some p) (hid : p.id ≠ "")
    (hv : usernameTooShort p.username = false)
    (hb : b (mkUpsertRecord p now) = some e) (hc : e.code ≠ some "23505") :
    (updateProfile s b now).1.error =
      some (e.message.getD "Failed to update profile") ∧
    (∀ m, e.message = some m → (updateProfile s b now).1.error = some m) ∧
    (e.message = none →
      (updateProfile s b now).1.error = some "Failed to update profile") := by
  have hid2 : (p.id == "") = false := by simp [hid]
  have hc2 : (e.code == some "23505") = false := by simp [hc]
  refine ⟨?_, ?_, ?_⟩
  · simp [updateProfile, hp, hid2, hv, hb, hc2]
  · intro m hm
    simp [updateProfile, hp, hid2, hv, hb, hc2, hm]
  · intro hm
    simp [updateProfile, hp, hid2, hv, hb, hc2, hm]

/-- C6 witness: a backend error with code 500 and a message surfaces that
message verbatim. -/
theorem updateProfile_genericError_witness :
    (updateProfile (sampleState (some "abc"))
        (fun _ => some ⟨some "500", some "boom"⟩) "t").1.error = some "boom" :=
  (updateProfile_genericError (sampleState (some "abc"))
      (sampleProfile (some "abc")) (fun _ => some ⟨some "500", some "boom"⟩) "t"
      ⟨some "500", some "boom"⟩ rfl (by decide) (by decide) rfl (by decide)).2.1
    "boom" rfl

/-- C7: when no loaded profile id exists (no profile, or a profile whose id is
the empty string — the `!profile?.id` guard), the save is a no-op: the state
is returned unchanged, no upsert call is issued and no refresh happens. -/
theorem updateProfile_noId (s : ComponentState)
    (b : UpsertRecord → Option DbError) (now : String)
    (h : s.profile = none ∨ ∃ p, s.profile = some p ∧ p.id = "") :
    updateProfile s b now = (s, ⟨none, false⟩) := by
  rcases h with h | ⟨p, hp, hid⟩
  · exact updateProfile_profile_none s b now h
  · have hid2 : (p.id == "") = true := by simp [hid]
    simp [updateProfile, hp, hid2]

/-- C7 witness: the initial state has no profile, so save does nothing. -/
theorem updateProfile_noId_witness :
    updateProfile initialState acceptAll "t" = (initialState, ⟨none, false⟩) :=
  updateProfile_noId initialState acceptAll "t" (Or.inl rfl)

/-- C8 counterexample: two consecutive saves of identical field values against
an always-accepting backend write different records when the two calls observe
different timestamps, because `updated_at` is set to `new Date()` on each
save; both upsert calls are issued. -/
theorem updateProfile_twice_differs :
    (updateProfile (sampleState (some "abc")) acceptAll
        "2024-01-01T00:00:00.000Z").2.upsertRecord ≠
      (updateProfile (updateProfile (sampleState (some "abc")) acceptAll
          "2024-01-01T00:00:00.000Z").1 acceptAll
        "2024-01-01T00:00:01.000Z").2.upsertRecord ∧
    (updateProfile (sampleState (some "abc")) acceptAll
        "2024-01-01T00:00:00.000Z").2.upsertRecord ≠ none ∧
    (updateProfile (updateProfile (sampleState (some "abc")) acceptAll
        "2024-01-01T00:00:00.000Z").1 acceptAll
      "2024-01-01T00:00:01.000Z").2.upsertRecord ≠ none := by
  decide

/-- C8 (amended): two consecutive saves with identical field values against an
always-accepting backend write the records `mkUpsertRecord p now1` and
`mkUpsertRecord p now2` — identical in every field except `updated_at`, which
carries each save's own timestamp — and the two written records are equal
exactly when the two calls observe the same timestamp. -/
theorem updateProfile_twice (s : ComponentState) (p : Profile)
    (b : UpsertRecord → Option DbError) (now1 now2 : String)
    (hp : s.profile = some p) (hid : p.id ≠ "")
    (hv : usernameTooShort p.username = false)
    (hb : ∀ r, b r = none) :
    (updateProfile s b now1).2.upsertRecord = some (mkUpsertRecord p now1) ∧
    (updateProfile (updateProfile s b now1).1 b now2).2.upsertRecord =
      some (mkUpsertRecord p now2) ∧
    ((updateProfile s b now1).2.upsertRecord =
        (updateProfile (updateProfile s b now1).1 b now2).2.upsertRecord ↔
      now1 = now2) := by
  have hp2 : (updateProfile s b now1).1.profile = some p := by
    rw [updateProfile_preserves_profile]; exact hp
  have h1 : (updateProfile s b now1).2.upsertRecord = some (mkUpsertRecord p now1) :=
    updateProfile_callsBackend s p b now1 hp hid hv
  have h2 : (updateProfile (updateProfile s b now1).1 b now2).2.upsertRecord =
      some (mkUpsertRecord p now2) :=
    updateProfile_callsBackend _ p b now2 hp2 hid hv
  refine ⟨h1, h2, ?_⟩
  rw [h1, h2]
  constructor
  · intro h
    have := Option.some.inj h
    exact congrArg UpsertRecord.updated_at this
  · intro h; rw [h]

/-- C8 witness: with equal timestamps the two written records coincide. -/
theorem updateProfile_twice_witness :
    (updateProfile (sampleState (some "abc")) acceptAll "t").2.upsertRecord =
      some (mkUpsertRecord (sampleProfile (some "abc")) "t") ∧
    (updateProfile (updateProfile (sampleState (some "abc")) acceptAll "t").1
        acceptAll "t").2.upsertRecord =
      some (mkUpsertRecord (sampleProfile (some "abc")) "t") :=
  ⟨(updateProfile_twice (sampleState (some "abc")) (sampleProfile (some "abc"))
      acceptAll "t" "t" rfl (by decide) (by decide) (fun _ => rfl)).1,
   (updateProfile_twice (sampleState (some "abc")) (sampleProfile (some "abc"))
      acceptAll "t" "t" rfl (by decide) (by decide) (fun _ => rfl)).2.1⟩

/-- C9: after any save attempt that passes the `!profile?.id` guard, at most
one of the error message and the success message is non-null: the attempt
clears both at the start and every exit path sets at most one of them. -/
theorem updateProfile_messageExclusive (s : ComponentState) (p : Profile)
    (b : UpsertRecord → Option DbError) (now : String)
    (hp : s.profile = some p) (hid : p.id ≠ "") :
    (updateProfile s b now).1.error = none ∨
    (updateProfile s b now).1.successMessage = none := by
  have hid2 : (p.id == "") = false := by simp [hid]
  simp only [updateProfile, hp, hid2, Bool.false_eq_true, if_false]
  by_cases hv : usernameTooShort p.username = true
  · simp [hv]
  · simp only [Bool.not_eq_true] at hv
    simp only [hv, Bool.false_eq_true, if_false]
    cases b (mkUpsertRecord p now) with
    | none => simp
    | some e =>
      by_cases hc : (e.code == some "23505") = true <;> simp [hc]

/-- C9 witness: a successful save leaves the error cleared. -/
theorem updateProfile_messageExclusive_witness :
    (updateProfile (sampleState (some "abc")) acceptAll "t").1.error = none ∨
    (updateProfile (sampleState (some "abc")) acceptAll "t").1.successMessage = none :=
  updateProfile_messageExclusive (sampleState (some "abc"))
    (sampleProfile (some "abc")) acceptAll "t" rfl (by decide)

/-- C10: after a failed load from the initial state, the profile stays `none`,
and a subsequent save is a silent no-op: the state is unchanged and no upsert
call or refresh is issued. -/
theorem fetchProfile_fail_then_save (b : UpsertRecord → Option DbError)
    (now : String) (userRes : Except Unit (Option String))
    (profRes : Except Unit (Option Profile × Option DbError))
    (hfail : userRes = .error () ∨ ∃ uid, userRes = .ok (some uid) ∧
      (profRes = .error () ∨ ∃ d e, profRes = .ok (d, some e))) :
    (fetchProfile initialState userRes profRes).1.profile = none ∧
    updateProfile (fetchProfile initialState userRes profRes).1 b now =
      ((fetchProfile initialState userRes profRes).1, ⟨none, false⟩) := by
  have hnone : (fetchProfile initialState userRes profRes).1.profile = none := by
    rcases hfail with h | ⟨uid, hu, h | ⟨d, e, h⟩⟩ <;> subst h
    · rfl
    · subst hu; rfl
    · subst hu; rfl
  exact ⟨hnone, updateProfile_profile_none _ b now hnone⟩

/-- C10 witness: a rejected identity fetch followed by a save. -/
theorem fetchProfile_fail_then_save_witness :
    (fetchProfile initialState (.error ()) (.ok (none, none))).1.profile = none ∧
    updateProfile (fetchProfile initialState (.error ()) (.ok (none, none))).1
        acceptAll "t" =
      ((fetchProfile initialState (.error ()) (.ok (none, none))).1,
       ⟨none, false⟩) :=
  fetchProfile_fail_then_save acceptAll "t" (.error ()) (.ok (none, none))
    (Or.inl rfl)

end ProfilePage
